import Mathlib

/-!
A shallow embedding of the IMFPY simulation core:
`imfpy/simulation/config.py`, `imfpy/simulation/results.py`,
`imfpy/simulation/backends/python_backend.py`,
`imfpy/simulation/backends/gpu_backend.py`,
`imfpy/simulation/backends/fortran_backend.py`,
`imfpy/simulation/runner.py` and `imfpy/fortran/build.py`.

Scalars are modelled as rationals: every concrete float value the program
manipulates is a rational number, and the properties verified here are
structural and exact-arithmetic properties, not rounding properties.
The square root used by `np.linalg.norm` is kept abstract as a function
parameter `sq : ℚ → ℚ` applied to the sum of squares; no property proved
below depends on its values, and keeping it abstract lets every
definition remain computable.
-/

/-- A one-dimensional numpy float array: its length and its entries.
Entries at indices at or beyond `size` are junk the real array does not
have; every statement below only touches in-range indices. -/
structure Arr1 where
  size : ℕ
  entry : ℕ → ℚ

/-- A two-dimensional numpy float array with shape `(rows, cols)`. -/
structure Arr2 where
  rows : ℕ
  cols : ℕ
  entry : ℕ → ℕ → ℚ

/-- A three-dimensional numpy float array with shape `(d0, d1, d2)`. -/
structure Arr3 where
  d0 : ℕ
  d1 : ℕ
  d2 : ℕ
  entry : ℕ → ℕ → ℕ → ℚ

/-- A per-step simulation state, `state[p][c]` for particle `p` and
component `c` (components 0-2 position, 3-5 velocity), modelling one
`(n_particles, 6)` numpy array. -/
abbrev PState := ℕ → ℕ → ℚ

/-- Python exception values raised by the simulation core.
`gpuNotAvailable` models `GPUNotAvailableError` (a `RuntimeError`
subclass from `gpu_backend.py`); `fortranBuildError` models
`FortranBuildError` (a `RuntimeError` subclass from `fortran/build.py`).
The `cause` fields model exception chaining via `raise ... from exc`. -/
inductive PyError where
  | typeError (msg : String)
  | valueError (msg : String)
  | runtimeError (msg : String) (cause : Option PyError)
  | gpuNotAvailable (msg : String)
  | fortranBuildError (msg : String) (cause : Option PyError)

/-- True exactly on `TypeError` values. -/
def PyError.isTypeErr : PyError → Bool
  | .typeError _ => true
  | _ => false

/-- True exactly on `ValueError` values. -/
def PyError.isValueErr : PyError → Bool
  | .valueError _ => true
  | _ => false

/-- True exactly on plain `RuntimeError` values (not on the
`GPUNotAvailableError` / `FortranBuildError` subclasses). -/
def PyError.isPlainRuntimeErr : PyError → Bool
  | .runtimeError _ _ => true
  | _ => false

/-- A fallible Python call raised a `TypeError`. -/
def resultIsTypeError {α : Type} : Except PyError α → Bool
  | .error e => e.isTypeErr
  | .ok _ => false

/-- A fallible Python call raised a `ValueError`. -/
def resultIsValueError {α : Type} : Except PyError α → Bool
  | .error e => e.isValueErr
  | .ok _ => false

/-- A fallible Python call raised a plain `RuntimeError`. -/
def resultIsPlainRuntimeError {α : Type} : Except PyError α → Bool
  | .error e => e.isPlainRuntimeErr
  | .ok _ => false

/-- The closed backend enumeration `BackendName` from `config.py`:
`Literal["fortran", "python", "gpu"]`. -/
inductive BackendName where
  | fortran
  | python
  | gpu
deriving DecidableEq

/-- A value handed to a dataclass field of `ParticleEnsemble`: either a
`numpy.ndarray` of the expected rank (payload type `arr`) or a plain
Python list (payload type `lst`), which `isinstance(value, np.ndarray)`
rejects. -/
inductive PyField (arr : Type) (lst : Type) where
  | ndarray (a : arr)
  | pylist (l : lst)

/-- True exactly when the field value is a plain Python list. -/
def PyField.isPylist {arr lst : Type} : PyField arr lst → Bool
  | .ndarray _ => false
  | .pylist _ => true

/-- The validated `ParticleEnsemble` dataclass from `config.py`:
per-particle initial state and physical parameters.  The per-particle
scalar sequences are rank-1 arrays, as produced by `from_sequences` and
by every caller in the repository. -/
structure ParticleEnsemble where
  positions : Arr2
  velocities : Arr2
  charges : Arr1
  masses : Arr1
  betas : Arr1

/-- `ParticleEnsemble.count`: `self.positions.shape[0]`. -/
def ParticleEnsemble.count (e : ParticleEnsemble) : ℕ :=
  e.positions.rows

/-- `np.any(a <= 0)` over a rank-1 array. -/
def Arr1.anyNonpos (a : Arr1) : Bool :=
  (List.range a.size).any fun i => decide (a.entry i ≤ 0)

/-- The validation performed by `ParticleEnsemble.__post_init__` after
the `isinstance` checks, in source order: positions/velocities share a
shape, positions are `(n, 3)`, every per-particle sequence has leading
dimension `n`, and all masses are strictly positive.  An error means the
dataclass raised and no object was constructed. -/
def mkEnsembleArr (positions velocities : Arr2) (charges masses betas : Arr1) :
    Except PyError ParticleEnsemble :=
  if positions.rows ≠ velocities.rows ∨ positions.cols ≠ velocities.cols then
    .error (.valueError "positions and velocities must share the same shape")
  else if positions.cols ≠ 3 then
    .error (.valueError "positions must be shaped (n_particles, 3)")
  else if velocities.rows ≠ positions.rows then
    .error (.valueError "velocities length does not match")
  else if charges.size ≠ positions.rows then
    .error (.valueError "charges length does not match")
  else if masses.size ≠ positions.rows then
    .error (.valueError "masses length does not match")
  else if betas.size ≠ positions.rows then
    .error (.valueError "betas length does not match")
  else if masses.anyNonpos then
    .error (.valueError "Mass values must be strictly positive")
  else
    .ok ⟨positions, velocities, charges, masses, betas⟩

/-- Direct construction of the `ParticleEnsemble` dataclass:
`__post_init__` first checks `isinstance(value, np.ndarray)` for each of
the five fields in source order, raising `TypeError` at the first plain
list, then performs the shape and mass validation. -/
def ensembleInit (positions velocities : PyField Arr2 (List (List ℚ)))
    (charges masses betas : PyField Arr1 (List ℚ)) :
    Except PyError ParticleEnsemble :=
  match positions, velocities, charges, masses, betas with
  | .pylist _, _, _, _, _ => .error (.typeError "positions must be a numpy.ndarray")
  | _, .pylist _, _, _, _ => .error (.typeError "velocities must be a numpy.ndarray")
  | _, _, .pylist _, _, _ => .error (.typeError "charges must be a numpy.ndarray")
  | _, _, _, .pylist _, _ => .error (.typeError "masses must be a numpy.ndarray")
  | _, _, _, _, .pylist _ => .error (.typeError "betas must be a numpy.ndarray")
  | .ndarray p, .ndarray v, .ndarray c, .ndarray m, .ndarray b =>
      mkEnsembleArr p v c m b

/-- `np.array(list(positions), dtype=float)` on a rectangular list of
row lists. -/
def listToArr2 (l : List (List ℚ)) : Arr2 :=
  ⟨l.length, (l.headD []).length, fun i j => ((l.getD i []).getD j 0)⟩

/-- `np.asarray(values, dtype=float)` on a flat list. -/
def listToArr1 (l : List ℚ) : Arr1 :=
  ⟨l.length, fun i => l.getD i 0⟩

/-- `ParticleEnsemble.from_sequences`: coerces the five sequences to
numpy arrays and calls the dataclass constructor; the coerced values are
all ndarrays, so the `isinstance` checks pass and only the shape/mass
validation can reject. -/
def from_sequences (positions velocities : List (List ℚ))
    (charges masses betas : List ℚ) : Except PyError ParticleEnsemble :=
  mkEnsembleArr (listToArr2 positions) (listToArr2 velocities)
    (listToArr1 charges) (listToArr1 masses) (listToArr1 betas)

/-- `ParticleEnsemble.as_initial_state`:
`np.hstack((self.positions, self.velocities))`, shaped `(n, 6)`. -/
def as_initial_state (e : ParticleEnsemble) : Arr2 :=
  ⟨e.count, 6, fun p c =>
    if c < 3 then e.positions.entry p c else e.velocities.entry p (c - 3)⟩

/-- The `SimulationConfig` dataclass from `config.py`.  `num_steps` is
a ℕ here: validation rejects every value at most 1, so the nonnegative
model is adequate for all constructible configurations. -/
structure SimulationConfig where
  particles : ParticleEnsemble
  num_steps : ℕ
  time_step : ℚ
  gm_sun : ℚ
  electric_field : Arr1
  magnetic_field : Arr1
  backend : BackendName
  gpu_device : Option ℤ

/-- `SimulationConfig.__post_init__`: rejects `num_steps <= 1` and
`time_step <= 0`, coerces/validates the two field vectors to shape
`(3,)` via `_to_array`, and checks the backend name (always in the
closed enumeration here, since `BackendName` is an inductive type).
This validation touches no backend: it depends on no execution
environment. -/
def mkConfig (particles : ParticleEnsemble) (num_steps : ℕ) (time_step : ℚ)
    (gm_sun : ℚ) (electric_field magnetic_field : Arr1)
    (backend : BackendName) (gpu_device : Option ℤ) :
    Except PyError SimulationConfig :=
  if num_steps ≤ 1 then
    .error (.valueError "num_steps must be > 1")
  else if time_step ≤ 0 then
    .error (.valueError "time_step must be positive")
  else if electric_field.size ≠ 3 then
    .error (.valueError "Expected sequence of length 3, got another shape")
  else if magnetic_field.size ≠ 3 then
    .error (.valueError "Expected sequence of length 3, got another shape")
  else
    .ok ⟨particles, num_steps, time_step, gm_sun, electric_field,
      magnetic_field, backend, gpu_device⟩

/-- `SimulationConfig.time_span`:
`self.time_step * float(self.num_steps - 1)`. -/
def time_span (cfg : SimulationConfig) : ℚ :=
  cfg.time_step * ((cfg.num_steps - 1 : ℕ) : ℚ)

/-- `SimulationConfig.times`:
`np.linspace(0.0, self.time_span, self.num_steps)`, i.e. `num_steps`
samples `i * (time_span / (num_steps - 1))`. -/
def timesArr (cfg : SimulationConfig) : Arr1 :=
  ⟨cfg.num_steps, fun i =>
    (i : ℚ) * (time_span cfg / ((cfg.num_steps - 1 : ℕ) : ℚ))⟩

/-- `SimulationConfig.q_over_m`:
`self.particles.charges / self.particles.masses`, elementwise. -/
def q_over_m (cfg : SimulationConfig) : ℕ → ℚ :=
  fun i => cfg.particles.charges.entry i / cfg.particles.masses.entry i

/-- The `SimulationResult` dataclass from `results.py`. -/
structure SimulationResult where
  times : Arr1
  state : Arr3
  backend : String

/-- `SimulationResult.positions`: `self.state[:, :, :3]`. -/
def SimulationResult.positionsView (r : SimulationResult) : Arr3 :=
  ⟨r.state.d0, r.state.d1, 3, fun i p c => r.state.entry i p c⟩

/-- `SimulationResult.velocities`: `self.state[:, :, 3:]`. -/
def SimulationResult.velocitiesView (r : SimulationResult) : Arr3 :=
  ⟨r.state.d0, r.state.d1, 3, fun i p c => r.state.entry i p (3 + c)⟩

/-- `state[:, :3]` for one particle: the position slice of a state row. -/
def posOf (st : PState) (p : ℕ) : ℕ → ℚ :=
  fun j => st p j

/-- `state[:, 3:]` for one particle: the velocity slice of a state row. -/
def velOf (st : PState) (p : ℕ) : ℕ → ℚ :=
  fun j => st p (3 + j)

/-- `np.linalg.norm(positions, axis=1)` for one particle: the abstract
square root `sq` applied to the sum of the squares of the three
components (positions are validated to shape `(n, 3)`). -/
def norm3 (sq : ℚ → ℚ) (v : ℕ → ℚ) : ℚ :=
  sq (v 0 ^ 2 + v 1 ^ 2 + v 2 ^ 2)

/-- `np.where(r > 1e-12, r**3, np.inf)` for one particle: `none` stands
for the IEEE `np.inf` used as the divisor in the degenerate branch. -/
def r3where (r : ℚ) : Option ℚ :=
  if 1e-12 < r then some (r ^ 3) else none

/-- Division with an optionally infinite divisor: dividing a finite
float by `np.inf` yields exactly (signed) zero in IEEE arithmetic. -/
def infDiv (x : ℚ) : Option ℚ → ℚ
  | some y => x / y
  | none => 0

/-- `grav_coeff = -gm_sun * (1.0 - beta) / r3` for one particle. -/
def grav_coeff (gm beta r : ℚ) : ℚ :=
  infDiv (-gm * (1 - beta)) (r3where r)

/-- `np.cross(velocities, magnetic_field)` for one particle row of a
`(n, 3)` array against a 3-vector; components beyond index 2 do not
exist on a length-3 numpy axis. -/
def cross3 (a b : ℕ → ℚ) : ℕ → ℚ
  | 0 => a 1 * b 2 - a 2 * b 1
  | 1 => a 2 * b 0 - a 0 * b 2
  | 2 => a 0 * b 1 - a 1 * b 0
  | _ => 0

/-- `_derivatives_numpy` from `python_backend.py`: per particle the
output row is `hstack((velocities, acc))` with
`acc = positions * grav_coeff[:, None] + q_over_m[:, None] *
(electric_field + cross(velocities, magnetic_field))`.
When numba is installed the same function is JIT-compiled unchanged
(`njit(_derivatives_numpy, ...)`); both paths compute this map. -/
def derivatives_numpy (sq : ℚ → ℚ) (gm : ℚ) (qom beta : ℕ → ℚ) (E B : ℕ → ℚ)
    (st : PState) : PState :=
  fun p c =>
    if c < 3 then velOf st p c
    else
      posOf st p (c - 3) * grav_coeff gm (beta p) (norm3 sq (posOf st p))
        + qom p * (E (c - 3) + cross3 (velOf st p) B (c - 3))

/-- The device-resident derivative closure `deriv` defined inside
`GPUBackend.run` in `gpu_backend.py`: the same expressions as
`_derivatives_numpy`, written with `cp` in place of `np`
(`cp.asarray`/`cp.asnumpy` transfers are value-identities). -/
def derivGPU (sq : ℚ → ℚ) (gm : ℚ) (qom beta : ℕ → ℚ) (E B : ℕ → ℚ)
    (st : PState) : PState :=
  fun p c =>
    if c < 3 then velOf st p c
    else
      posOf st p (c - 3) * grav_coeff gm (beta p) (norm3 sq (posOf st p))
        + qom p * (E (c - 3) + cross3 (velOf st p) B (c - 3))

/-- `_rk4_step` from `python_backend.py` (also imported and reused
verbatim by `gpu_backend.py`): the classical fixed-step RK4 update. -/
def rk4_step (dt : ℚ) (f : PState → PState) (state : PState) : PState :=
  let k1 := f state
  let k2 := f (fun p c => state p c + 0.5 * dt * k1 p c)
  let k3 := f (fun p c => state p c + 0.5 * dt * k2 p c)
  let k4 := f (fun p c => state p c + dt * k3 p c)
  fun p c =>
    state p c + dt / 6 * (k1 p c + 2 * k2 p c + 2 * k3 p c + k4 p c)

/-- The fill loop `for i in range(1, num_steps): state[i] =
_rk4_step(state[i - 1], dt, deriv)` with `state[0]` the initial state:
row `i` of the state tensor. -/
def fillState (step : PState → PState) (s0 : PState) : ℕ → PState
  | 0 => s0
  | i + 1 => step (fillState step s0 i)

/-- `PythonBackend.run` from `python_backend.py`: allocates the
`(num_steps, count, 6)` state tensor, seeds row 0 with
`as_initial_state`, advances rows with `_rk4_step` over the shared
derivative, and returns the result tagged `"python"`. -/
def PythonBackend_run (sq : ℚ → ℚ) (cfg : SimulationConfig) : SimulationResult :=
  let ens := cfg.particles
  let derivF := derivatives_numpy sq cfg.gm_sun (q_over_m cfg) ens.betas.entry
    cfg.electric_field.entry cfg.magnetic_field.entry
  let step := rk4_step cfg.time_step derivF
  { times := timesArr cfg
    state := ⟨cfg.num_steps, ens.count, 6, fun i p c =>
      fillState step (as_initial_state ens).entry i p c⟩
    backend := "python" }

/-- `GPUBackend.run` from `gpu_backend.py`: same allocation, seeding and
`_rk4_step` loop as the python backend, with the device-local derivative
closure, result copied back to host and tagged `"gpu"`. -/
def GPUBackend_run (sq : ℚ → ℚ) (cfg : SimulationConfig) : SimulationResult :=
  let ens := cfg.particles
  let derivF := derivGPU sq cfg.gm_sun (q_over_m cfg) ens.betas.entry
    cfg.electric_field.entry cfg.magnetic_field.entry
  let step := rk4_step cfg.time_step derivF
  { times := timesArr cfg
    state := ⟨cfg.num_steps, ens.count, 6, fun i p c =>
      fillState step (as_initial_state ens).entry i p c⟩
    backend := "gpu" }

/-- Modelled from the spec: the Fortran kernel `integrate_particles` in
`dust_integrator.f90` is not part of the sources (only the f2py bridge
in `fortran_backend.py` is).  Per spec section 4.1 every backend runs
the identical RK4 recurrence over the identical Lorentz + gravity +
radiation-pressure derivative, so the kernel is modelled as the shared
`rk4_step`/`deriv` pair.  The buffer layout is taken from the bridge:
the initial state arrives transposed as `(6, num_particles)` in Fortran
order, the result buffer is `(6, num_particles, num_steps)`, and the
routine returns `(results, status)` with status 0 on success. -/
def integrate_particles (sq : ℚ → ℚ) (dt gm : ℚ) (qom beta : ℕ → ℚ)
    (E B : ℕ → ℚ) (initial : ℕ → ℕ → ℚ) : (ℕ → ℕ → ℕ → ℚ) × ℤ :=
  let s0 : PState := fun p c => initial c p
  let step := rk4_step dt (derivatives_numpy sq gm qom beta E B)
  (fun c p i => fillState step s0 i p c, 0)

/-- `FortranBackend.run` from `fortran_backend.py`: transposes the
initial state to column-major `(6, n)`, calls `integrate_particles`,
raises `RuntimeError` on a non-zero status, transposes the `(6, n, N)`
result buffer back to `(N, n, 6)` and tags the result `"fortran"`. -/
def FortranBackend_run (sq : ℚ → ℚ) (cfg : SimulationConfig) :
    Except PyError SimulationResult :=
  let ens := cfg.particles
  let initial_state : ℕ → ℕ → ℚ := fun c p => (as_initial_state ens).entry p c
  let out := integrate_particles sq cfg.time_step cfg.gm_sun (q_over_m cfg)
    ens.betas.entry cfg.electric_field.entry cfg.magnetic_field.entry
    initial_state
  if out.2 ≠ 0 then
    .error (.runtimeError "Fortran integrator returned non-zero status" none)
  else
    .ok { times := timesArr cfg
          state := ⟨cfg.num_steps, ens.count, 6, fun i p c => out.1 c p i⟩
          backend := "fortran" }

/-- The execution environment the backend layer probes: whether the
`cupy` import succeeds, and the outcome of building/loading the
compiled Fortran module (`imfpy/fortran/build.py`); an error carries
the `FortranBuildError` message raised by `build_module`. -/
structure Env where
  cupy : Bool
  fortranLoad : Except String Unit

/-- The message of the `GPUNotAvailableError` raised by
`GPUBackend.__init__`. -/
def cupyMissingMsg : String :=
  "CuPy is not installed. Install cupy-cudaXX to enable GPU acceleration."

/-- The wrapping message of the `FortranBuildError` raised by
`load_module` in `fortran/build.py` when `build_module` fails. -/
def fortranLoadFailMsg : String :=
  "Unable to compile the Fortran dust integrator. Ensure that gfortran (or another supported Fortran compiler) is installed and available on PATH."

/-- `GPUBackend.__init__` from `gpu_backend.py`: raises
`GPUNotAvailableError` eagerly when the `cupy` import failed, succeeds
otherwise.  `GPUBackend.run` performs no availability check of its own
(`GPUBackend_run` above does not consult the environment at all). -/
def GPUBackend_init (env : Env) : Except PyError Unit :=
  if env.cupy then .ok ()
  else .error (.gpuNotAvailable cupyMissingMsg)

/-- `load_module` from `fortran/build.py`: on a `FortranBuildError` from
`build_module` it raises a new `FortranBuildError` with the gfortran
hint message, chaining the original error as the cause. -/
def load_module (env : Env) : Except PyError Unit :=
  match env.fortranLoad with
  | .ok _ => .ok ()
  | .error msg =>
      .error (.fortranBuildError fortranLoadFailMsg
        (some (.fortranBuildError msg none)))

/-- `FortranBackend.__init__` from `fortran_backend.py`: calls
`load_module`; a `FortranBuildError` is logged and re-raised unchanged. -/
def FortranBackend_init (env : Env) : Except PyError Unit :=
  load_module env

/-- A constructed backend instance. -/
inductive BackendInst where
  | fortran
  | python
  | gpu

/-- `BackendRegistry.get` with the `DEFAULT_BACKENDS` factories from
`runner.py`: instantiates the named backend class.  The `KeyError`
branch of the source is unreachable here because `BackendName` is the
closed enumeration that `SimulationConfig` validation enforces. -/
def registry_get (env : Env) : BackendName → Except PyError BackendInst
  | .python => .ok .python
  | .gpu => (GPUBackend_init env).map fun _ => .gpu
  | .fortran => (FortranBackend_init env).map fun _ => .fortran

/-- `SimulationRunner.run` from `runner.py`: resolves the backend via
the registry, translating only `GPUNotAvailableError` into
`RuntimeError("GPU backend requested but unavailable")` with the
original exception chained as the cause; every other resolution error
(in particular `FortranBuildError`) propagates unchanged; on success it
forwards to `backend.run(config)`. -/
def runner_run (sq : ℚ → ℚ) (env : Env) (cfg : SimulationConfig) :
    Except PyError SimulationResult :=
  match registry_get env cfg.backend with
  | .error (.gpuNotAvailable m) =>
      .error (.runtimeError "GPU backend requested but unavailable"
        (some (.gpuNotAvailable m)))
  | .error e => .error e
  | .ok .python => .ok (PythonBackend_run sq cfg)
  | .ok .gpu => .ok (GPUBackend_run sq cfg)
  | .ok .fortran => FortranBackend_run sq cfg

/-- The invariants `SimulationConfig.__post_init__` guarantees for every
constructed configuration. -/
def SimulationConfig.Valid (cfg : SimulationConfig) : Prop :=
  1 < cfg.num_steps ∧ 0 < cfg.time_step ∧
    cfg.electric_field.size = 3 ∧ cfg.magnetic_field.size = 3

/-- Concrete square-root stand-in used by witnesses; no settled property
depends on the values of the abstract square root. -/
def sqZero : ℚ → ℚ := fun _ => 0

/-- A concrete one-particle position/velocity array. -/
def arr2One : Arr2 := ⟨1, 3, fun _ _ => 1⟩

/-- A concrete two-particle position/velocity array. -/
def arr2Two : Arr2 := ⟨2, 3, fun _ _ => 1⟩

/-- A concrete one-entry scalar array. -/
def arr1One : Arr1 := ⟨1, fun _ => 1⟩

/-- A concrete two-entry scalar array. -/
def arr1Two : Arr1 := ⟨2, fun _ => 1⟩

/-- A concrete one-entry scalar array holding a non-positive mass. -/
def arr1Neg : Arr1 := ⟨1, fun _ => -1⟩

/-- A concrete zero 3-vector for the field arrays. -/
def arr1Zero3 : Arr1 := ⟨3, fun _ => 0⟩

/-- A concrete validated one-particle ensemble. -/
def ensW : ParticleEnsemble := ⟨arr2One, arr2One, arr1One, arr1One, arr1One⟩

/-- A concrete validated configuration on the python backend. -/
def cfgW : SimulationConfig :=
  ⟨ensW, 2, 1, 1, arr1Zero3, arr1Zero3, .python, none⟩

/-- C1: for every configuration (in particular every validated one) the
vectorized python backend, the GPU backend and the native fortran
backend produce the same trajectory: the state tensors agree exactly at
every step index, particle and component, hence in particular within
any relative tolerance such as 1e-6, because all three run the identical
RK4 kernel (the fortran kernel is modelled from the spec, its source
file not being part of the repository sources). -/
theorem spec_c1_backends_agree (sq : ℚ → ℚ) (cfg : SimulationConfig) (i p c : ℕ) :
    (GPUBackend_run sq cfg).state.entry i p c =
      (PythonBackend_run sq cfg).state.entry i p c ∧
    ∃ res, FortranBackend_run sq cfg = .ok res ∧
      res.state.entry i p c = (PythonBackend_run sq cfg).state.entry i p c :=
  ⟨rfl, ⟨_, rfl, rfl⟩⟩

/-- C2: the python backend's result state has row 0 equal to the
ensemble's initial position/velocity concatenation, and every later row
is one classical RK4 step (coefficients dt/2, dt/2, dt, dt/6·(k1 + 2k2 +
2k3 + k4)) applied to the previous row, with the Lorentz + gravity +
radiation-pressure derivative; stated for every successor index, which
covers every `1 ≤ i < num_steps`. -/
theorem spec_c2_rk4_recurrence (sq : ℚ → ℚ) (cfg : SimulationConfig) (i : ℕ) :
    (PythonBackend_run sq cfg).state.entry 0 =
      (as_initial_state cfg.particles).entry ∧
    (PythonBackend_run sq cfg).state.entry (i + 1) =
      rk4_step cfg.time_step
        (derivatives_numpy sq cfg.gm_sun (q_over_m cfg)
          cfg.particles.betas.entry cfg.electric_field.entry
          cfg.magnetic_field.entry)
        ((PythonBackend_run sq cfg).state.entry i) :=
  ⟨rfl, rfl⟩

/-- C3: for every backend the first row of the result state equals the
ensemble's concatenated initial position/velocity matrix exactly:
`state[0][p]` holds `positions[p]` in components 0-2 and `velocities[p]`
in components 3-5 (the fortran kernel is modelled from the spec). -/
theorem spec_c3_initial_row (sq : ℚ → ℚ) (cfg : SimulationConfig) (p j : ℕ)
    (hj : j < 3) :
    ((PythonBackend_run sq cfg).state.entry 0 p j =
        cfg.particles.positions.entry p j ∧
      (PythonBackend_run sq cfg).state.entry 0 p (3 + j) =
        cfg.particles.velocities.entry p j) ∧
    ((GPUBackend_run sq cfg).state.entry 0 p j =
        cfg.particles.positions.entry p j ∧
      (GPUBackend_run sq cfg).state.entry 0 p (3 + j) =
        cfg.particles.velocities.entry p j) ∧
    ∃ res, FortranBackend_run sq cfg = .ok res ∧
      res.state.entry 0 p j = cfg.particles.positions.entry p j ∧
      res.state.entry 0 p (3 + j) = cfg.particles.velocities.entry p j := by
  have h3 : ¬ 3 + j < 3 := by omega
  refine ⟨⟨?_, ?_⟩, ⟨?_, ?_⟩, ⟨_, rfl, ?_, ?_⟩⟩ <;>
    simp [PythonBackend_run, GPUBackend_run, FortranBackend_run,
      integrate_particles, fillState, as_initial_state, hj, h3,
      Nat.add_sub_cancel_left]

/-- Closed witness for C3 at a concrete configuration and component. -/
theorem spec_c3_witness :
    (0 : ℕ) < 3 ∧
      (PythonBackend_run sqZero cfgW).state.entry 0 0 0 =
        cfgW.particles.positions.entry 0 0 :=
  ⟨by decide, ((spec_c3_initial_row sqZero cfgW 0 0 (by decide)).1).1⟩

/-- C4: for every validated configuration the python backend result has
state shape `(num_steps, num_particles, 6)`, its times array has length
`num_steps`, and the times are the evenly spaced samples `i * time_step`
running from 0 to `time_step * (num_steps - 1)`. -/
theorem spec_c4_shape_and_times (sq : ℚ → ℚ) (cfg : SimulationConfig) (i : ℕ)
    (hv : cfg.Valid) :
    (PythonBackend_run sq cfg).state.d0 = cfg.num_steps ∧
    (PythonBackend_run sq cfg).state.d1 = cfg.particles.count ∧
    (PythonBackend_run sq cfg).state.d2 = 6 ∧
    (PythonBackend_run sq cfg).times.size = cfg.num_steps ∧
    (PythonBackend_run sq cfg).times.entry i = (i : ℚ) * cfg.time_step := by
  refine ⟨rfl, rfl, rfl, rfl, ?_⟩
  have h1 : (0 : ℚ) < ((cfg.num_steps - 1 : ℕ) : ℚ) := by
    exact_mod_cast Nat.sub_pos_of_lt hv.1
  show (i : ℚ) * (time_span cfg / ((cfg.num_steps - 1 : ℕ) : ℚ)) = _
  rw [time_span, mul_div_assoc, div_self (ne_of_gt h1), mul_one]

/-- Closed witness for C4 at a concrete validated configuration. -/
theorem spec_c4_witness :
    cfgW.Valid ∧
      (PythonBackend_run sqZero cfgW).times.entry 1 =
        ((1 : ℕ) : ℚ) * cfgW.time_step :=
  have hv : cfgW.Valid := ⟨by decide, by decide, by decide, by decide⟩
  ⟨hv, (spec_c4_shape_and_times sqZero cfgW 1 hv).2.2.2.2⟩

/-- C5: in the derivative kernel, whenever a particle's position norm is
at or below the epsilon 1e-12 (in particular at the origin) the
`np.where` divisor is the infinity marker, the gravitational /
radiation-pressure coefficient is exactly zero, and the acceleration
reduces to the pure Lorentz term; whenever the norm exceeds the epsilon
the divisor is the strictly positive cube of the norm, so the (total)
derivative function never divides by zero. -/
theorem spec_c5_degenerate_radius (sq : ℚ → ℚ) (gm : ℚ) (qom beta : ℕ → ℚ)
    (E B : ℕ → ℚ) (st : PState) (p j : ℕ) (hj : j < 3) :
    (norm3 sq (posOf st p) ≤ 1e-12 →
      r3where (norm3 sq (posOf st p)) = none ∧
      grav_coeff gm (beta p) (norm3 sq (posOf st p)) = 0 ∧
      derivatives_numpy sq gm qom beta E B st p (3 + j) =
        qom p * (E j + cross3 (velOf st p) B j)) ∧
    (1e-12 < norm3 sq (posOf st p) →
      r3where (norm3 sq (posOf st p)) = some (norm3 sq (posOf st p) ^ 3) ∧
      norm3 sq (posOf st p) ^ 3 ≠ 0) := by
  constructor
  · intro hr
    have hw : r3where (norm3 sq (posOf st p)) = none := by
      rw [r3where, if_neg (not_lt.mpr hr)]
    have hg : grav_coeff gm (beta p) (norm3 sq (posOf st p)) = 0 := by
      rw [grav_coeff, hw, infDiv]
    refine ⟨hw, hg, ?_⟩
    have h3 : ¬ 3 + j < 3 := by omega
    rw [derivatives_numpy]
    simp [h3, hg, Nat.add_sub_cancel_left]
  · intro hr
    have hpos : 0 < norm3 sq (posOf st p) := lt_trans (by norm_num) hr
    refine ⟨by rw [r3where, if_pos hr], pow_ne_zero 3 (ne_of_gt hpos)⟩

/-- Closed witness for C5 at a concrete state whose abstract norm is 0
(degenerate branch) and a concrete state whose norm exceeds epsilon. -/
theorem spec_c5_witness :
    (norm3 sqZero (posOf (fun _ _ => 0) 0) ≤ 1e-12 ∧
      grav_coeff 1 ((fun _ => (0 : ℚ)) 0) (norm3 sqZero (posOf (fun _ _ => 0) 0)) = 0) ∧
    (1e-12 < norm3 (fun _ => 1) (posOf (fun _ _ => 0) 0) ∧
      norm3 (fun _ => 1) (posOf (fun _ _ => 0) 0) ^ 3 ≠ 0) :=
  ⟨⟨by norm_num [norm3, sqZero, posOf],
    ((spec_c5_degenerate_radius sqZero 1 (fun _ => 0) (fun _ => 0) (fun _ => 0)
        (fun _ => 0) (fun _ _ => 0) 0 0 (by decide)).1
      (by norm_num [norm3, sqZero, posOf])).2.1⟩,
   ⟨by norm_num [norm3, posOf],
    ((spec_c5_degenerate_radius (fun _ => 1) 1 (fun _ => 0) (fun _ => 0)
        (fun _ => 0) (fun _ => 0) (fun _ _ => 0) 0 0 (by decide)).2
      (by norm_num [norm3, posOf])).2⟩⟩

/-- Bridge between the `np.any` boolean and its logical meaning. -/
theorem anyNonpos_eq_true (a : Arr1) :
    a.anyNonpos = true ↔ ∃ i, i < a.size ∧ a.entry i ≤ 0 := by
  simp [Arr1.anyNonpos, List.any_eq_true, List.mem_range]

/-- C6: constructing a `ParticleEnsemble` whose velocities (or charges,
masses, betas) length differs from the positions length, or whose masses
contain a non-positive value, raises a `ValueError` and constructs no
object; constructing a `SimulationConfig` with `num_steps <= 1` or
`time_step <= 0` raises a `ValueError`; the configuration validator
depends on no execution environment, so no backend is constructed or
invoked by it. -/
theorem spec_c6_validation (p v : Arr2) (c m b : Arr1)
    (ens : ParticleEnsemble) (N : ℕ) (dt gm : ℚ) (E B : Arr1)
    (bk : BackendName) (dev : Option ℤ) :
    (p.rows ≠ v.rows → resultIsValueError (mkEnsembleArr p v c m b) = true) ∧
    (c.size ≠ p.rows → resultIsValueError (mkEnsembleArr p v c m b) = true) ∧
    (m.size ≠ p.rows → resultIsValueError (mkEnsembleArr p v c m b) = true) ∧
    (b.size ≠ p.rows → resultIsValueError (mkEnsembleArr p v c m b) = true) ∧
    ((∃ i, i < m.size ∧ m.entry i ≤ 0) →
      resultIsValueError (mkEnsembleArr p v c m b) = true) ∧
    (N ≤ 1 → resultIsValueError (mkConfig ens N dt gm E B bk dev) = true) ∧
    (dt ≤ 0 → resultIsValueError (mkConfig ens N dt gm E B bk dev) = true) := by
  refine ⟨?_, ?_, ?_, ?_, ?_, ?_, ?_⟩ <;> intro h
  · unfold mkEnsembleArr
    split_ifs <;> simp_all [resultIsValueError, PyError.isValueErr]
  · unfold mkEnsembleArr
    split_ifs <;> simp_all [resultIsValueError, PyError.isValueErr]
  · unfold mkEnsembleArr
    split_ifs <;> simp_all [resultIsValueError, PyError.isValueErr]
  · unfold mkEnsembleArr
    split_ifs <;> simp_all [resultIsValueError, PyError.isValueErr]
  · have hb : m.anyNonpos = true := (anyNonpos_eq_true m).mpr h
    unfold mkEnsembleArr
    split_ifs <;> simp_all [resultIsValueError, PyError.isValueErr]
  · unfold mkConfig
    split_ifs
    simp_all [resultIsValueError, PyError.isValueErr]
  · unfold mkConfig
    split_ifs <;> simp_all [resultIsValueError, PyError.isValueErr]

/-- Closed witness for C6: each rejection scenario at concrete inputs. -/
theorem spec_c6_witness :
    resultIsValueError (mkEnsembleArr arr2One arr2Two arr1One arr1One arr1One) = true ∧
    resultIsValueError (mkEnsembleArr arr2One arr2One arr1Two arr1One arr1One) = true ∧
    resultIsValueError (mkEnsembleArr arr2One arr2One arr1One arr1Neg arr1One) = true ∧
    resultIsValueError (mkEnsembleArr arr2One arr2One arr1One arr1One arr1Two) = true ∧
    resultIsValueError (mkConfig ensW 1 1 1 arr1Zero3 arr1Zero3 .python none) = true ∧
    resultIsValueError (mkConfig ensW 2 (-1) 1 arr1Zero3 arr1Zero3 .python none) = true :=
  ⟨(spec_c6_validation arr2One arr2Two arr1One arr1One arr1One ensW 2 1 1
      arr1Zero3 arr1Zero3 .python none).1 (by decide),
   (spec_c6_validation arr2One arr2One arr1Two arr1One arr1One ensW 2 1 1
      arr1Zero3 arr1Zero3 .python none).2.1 (by decide),
   (spec_c6_validation arr2One arr2One arr1One arr1Neg arr1One ensW 2 1 1
      arr1Zero3 arr1Zero3 .python none).2.2.2.2.1 ⟨0, by decide, by decide⟩,
   (spec_c6_validation arr2One arr2One arr1One arr1One arr1Two ensW 2 1 1
      arr1Zero3 arr1Zero3 .python none).2.2.2.1 (by decide),
   (spec_c6_validation arr2One arr2One arr1One arr1One arr1One ensW 1 1 1
      arr1Zero3 arr1Zero3 .python none).2.2.2.2.2.1 (by decide),
   (spec_c6_validation arr2One arr2One arr1One arr1One arr1One ensW 2 (-1) 1
      arr1Zero3 arr1Zero3 .python none).2.2.2.2.2.2 (by decide)⟩

/-- A concrete environment in which the fortran build fails. -/
def envFortranBroken : Env := ⟨true, .error "f2py compilation failed"⟩

/-- A concrete environment with cupy absent and the fortran build fine. -/
def envNoCupy : Env := ⟨false, .ok ()⟩

/-- A concrete environment with everything available. -/
def envAllOk : Env := ⟨true, .ok ()⟩

/-- A concrete validated configuration on the fortran backend. -/
def cfgFortran : SimulationConfig :=
  ⟨ensW, 2, 1, 1, arr1Zero3, arr1Zero3, .fortran, none⟩

/-- A concrete validated configuration on the gpu backend. -/
def cfgGpu : SimulationConfig :=
  ⟨ensW, 2, 1, 1, arr1Zero3, arr1Zero3, .gpu, none⟩

/-- C7 counterexample: when the fortran backend is unavailable because
its build fails, `SimulationRunner.run` does not raise the uniform
"requested backend unavailable" `RuntimeError`: the `FortranBuildError`
propagates untranslated, so the claimed single error shape for all
unavailable-backend cases is false at this concrete input. -/
theorem spec_c7_counterexample :
    runner_run sqZero envFortranBroken cfgFortran =
      .error (.fortranBuildError fortranLoadFailMsg
        (some (.fortranBuildError "f2py compilation failed" none))) ∧
    resultIsPlainRuntimeError (runner_run sqZero envFortranBroken cfgFortran) =
      false :=
  ⟨rfl, rfl⟩

/-- C7 amended: the runner translates only the GPU-unavailable case into
the uniform `RuntimeError("GPU backend requested but unavailable")`,
chaining the underlying `GPUNotAvailableError` as its cause; a fortran
build failure propagates unchanged as a `FortranBuildError`; the python
backend always resolves and runs. -/
theorem spec_c7_runner_translation (sq : ℚ → ℚ) (env : Env)
    (cfg : SimulationConfig) :
    (cfg.backend = .gpu → env.cupy = false →
      runner_run sq env cfg =
        .error (.runtimeError "GPU backend requested but unavailable"
          (some (.gpuNotAvailable cupyMissingMsg)))) ∧
    (cfg.backend = .fortran → ∀ s, env.fortranLoad = .error s →
      runner_run sq env cfg =
        .error (.fortranBuildError fortranLoadFailMsg
          (some (.fortranBuildError s none)))) ∧
    (cfg.backend = .python →
      runner_run sq env cfg = .ok (PythonBackend_run sq cfg)) := by
  refine ⟨fun hb hc => ?_, fun hb s hf => ?_, fun hb => ?_⟩
  · simp [runner_run, registry_get, GPUBackend_init, hb, hc, Except.map]
  · simp [runner_run, registry_get, FortranBackend_init, load_module, hb, hf,
      Except.map]
  · simp [runner_run, registry_get, hb]

/-- Closed witness for C7 amended: all three resolution outcomes at
concrete environments and configurations. -/
theorem spec_c7_witness :
    runner_run sqZero envNoCupy cfgGpu =
      .error (.runtimeError "GPU backend requested but unavailable"
        (some (.gpuNotAvailable cupyMissingMsg))) ∧
    runner_run sqZero envFortranBroken cfgFortran =
      .error (.fortranBuildError fortranLoadFailMsg
        (some (.fortranBuildError "f2py compilation failed" none))) ∧
    runner_run sqZero envAllOk cfgW = .ok (PythonBackend_run sqZero cfgW) :=
  ⟨(spec_c7_runner_translation sqZero envNoCupy cfgGpu).1 rfl rfl,
   (spec_c7_runner_translation sqZero envFortranBroken cfgFortran).2.1 rfl
     "f2py compilation failed" rfl,
   (spec_c7_runner_translation sqZero envAllOk cfgW).2.2 rfl⟩

/-- C8: when the GPU runtime (cupy) is absent, constructing the GPU
backend raises the specific `GPUNotAvailableError` eagerly at
construction time (its constructor is distinct from the plain
`RuntimeError` constructor); when the runtime is present construction
succeeds.  The run path (`GPUBackend_run`) takes no environment at all,
so no availability check can happen later than construction. -/
theorem spec_c8_gpu_eager (env : Env) :
    (env.cupy = false →
      GPUBackend_init env = .error (.gpuNotAvailable cupyMissingMsg) ∧
      ∀ m c, PyError.gpuNotAvailable cupyMissingMsg ≠ PyError.runtimeError m c) ∧
    (env.cupy = true → GPUBackend_init env = .ok ()) := by
  refine ⟨fun h => ⟨by simp [GPUBackend_init, h], fun m c hne => ?_⟩,
    fun h => by simp [GPUBackend_init, h]⟩
  exact PyError.noConfusion hne

/-- Closed witness for C8 at both concrete environments. -/
theorem spec_c8_witness :
    GPUBackend_init envNoCupy = .error (.gpuNotAvailable cupyMissingMsg) ∧
    GPUBackend_init envAllOk = .ok () :=
  ⟨((spec_c8_gpu_eager envNoCupy).1 rfl).1, (spec_c8_gpu_eager envAllOk).2 rfl⟩

/-- A concrete empty `(0, 3)` position/velocity array. -/
def emptyArr2 : Arr2 := ⟨0, 3, fun _ _ => 0⟩

/-- A concrete empty scalar array. -/
def emptyArr1 : Arr1 := ⟨0, fun _ => 0⟩

/-- C9: a `ParticleEnsemble` with zero particles (positions and
velocities shaped `(0, 3)`, empty charges/masses/betas) passes
validation, and for every `num_steps > 1` and positive `time_step` a
configuration over it validates and the vectorized backend run returns
a result with state shaped `(num_steps, 0, 6)` and times of length
`num_steps`. -/
theorem spec_c9_empty_ensemble (sq : ℚ → ℚ) (N : ℕ) (dt : ℚ)
    (hN : 1 < N) (hdt : 0 < dt) :
    ∃ ens, mkEnsembleArr emptyArr2 emptyArr2 emptyArr1 emptyArr1 emptyArr1 =
        .ok ens ∧
      ∃ cfg, mkConfig ens N dt 1 arr1Zero3 arr1Zero3 .python none = .ok cfg ∧
        (PythonBackend_run sq cfg).state.d0 = N ∧
        (PythonBackend_run sq cfg).state.d1 = 0 ∧
        (PythonBackend_run sq cfg).state.d2 = 6 ∧
        (PythonBackend_run sq cfg).times.size = N := by
  refine ⟨⟨emptyArr2, emptyArr2, emptyArr1, emptyArr1, emptyArr1⟩, rfl,
    ⟨⟨emptyArr2, emptyArr2, emptyArr1, emptyArr1, emptyArr1⟩, N, dt, 1,
      arr1Zero3, arr1Zero3, .python, none⟩, ?_, rfl, rfl, rfl, rfl⟩
  unfold mkConfig
  rw [if_neg (by omega), if_neg (not_le.mpr hdt), if_neg (by decide),
    if_neg (by decide)]

/-- Closed witness for C9 at `num_steps = 2`, `time_step = 1`. -/
theorem spec_c9_witness :
    ∃ ens, mkEnsembleArr emptyArr2 emptyArr2 emptyArr1 emptyArr1 emptyArr1 =
        .ok ens ∧
      ∃ cfg, mkConfig ens 2 1 1 arr1Zero3 arr1Zero3 .python none = .ok cfg ∧
        (PythonBackend_run sqZero cfg).state.d0 = 2 ∧
        (PythonBackend_run sqZero cfg).state.d1 = 0 ∧
        (PythonBackend_run sqZero cfg).state.d2 = 6 ∧
        (PythonBackend_run sqZero cfg).times.size = 2 :=
  spec_c9_empty_ensemble sqZero 2 1 (by decide) (by decide)

/-- C10: handing the `ParticleEnsemble` dataclass any field that is a
plain Python list raises a `TypeError` (a kind distinct from the
`ValueError` of the shape and mass checks), while `from_sequences`
coerces its sequences to arrays before validation and therefore can
never raise the `isinstance` `TypeError`. -/
theorem spec_c10_type_error_boundary (p v : PyField Arr2 (List (List ℚ)))
    (c m b : PyField Arr1 (List ℚ)) (lp lv : List (List ℚ))
    (lc lm lb : List ℚ) :
    ((p.isPylist = true ∨ v.isPylist = true ∨ c.isPylist = true ∨
        m.isPylist = true ∨ b.isPylist = true) →
      resultIsTypeError (ensembleInit p v c m b) = true) ∧
    resultIsTypeError (from_sequences lp lv lc lm lb) = false ∧
    (∀ s t, PyError.typeError s ≠ PyError.valueError t) := by
  refine ⟨?_, ?_, fun s t h => PyError.noConfusion h⟩
  · intro h
    cases p <;> cases v <;> cases c <;> cases m <;> cases b <;>
      simp_all [ensembleInit, PyField.isPylist, resultIsTypeError,
        PyError.isTypeErr]
  · unfold from_sequences mkEnsembleArr
    split_ifs <;> rfl

/-- Closed witness for C10: a plain-list field rejected with a
`TypeError`, and a `from_sequences` call free of any `TypeError`. -/
theorem spec_c10_witness :
    resultIsTypeError (ensembleInit (.pylist [[1, 0, 0]]) (.ndarray arr2One)
      (.ndarray arr1One) (.ndarray arr1One) (.ndarray arr1One)) = true ∧
    resultIsTypeError (from_sequences [[1, 0, 0]] [[0, 0, 0]] [1] [1] [0]) =
      false :=
  ⟨(spec_c10_type_error_boundary (.pylist [[1, 0, 0]]) (.ndarray arr2One)
      (.ndarray arr1One) (.ndarray arr1One) (.ndarray arr1One)
      [[1, 0, 0]] [[0, 0, 0]] [1] [1] [0]).1 (Or.inl rfl),
   (spec_c10_type_error_boundary (.pylist [[1, 0, 0]]) (.ndarray arr2One)
      (.ndarray arr1One) (.ndarray arr1One) (.ndarray arr1One)
      [[1, 0, 0]] [[0, 0, 0]] [1] [1] [0]).2.1⟩
